import Mathlib

/-!
Verification development for the Kraken WebSocket example decoder
(`examples/stream.py`).

The Python source is shallowly embedded: Python `str` becomes a list of
characters, Python numbers become `Rat` (decimal string-to-float parsing is
modelled as exact rational parsing of the sign/digits/fraction core accepted
by `float`), JSON values become the inductive `Json`, and Python exceptions
become the `Except PyExc` monad.  Every embedded function mirrors the source
statement by statement, including its bugs (unvalidated splits, silent
defaults, the unbound local `out` in `parse_message`).
-/

/-- Python strings are modelled as lists of characters. -/
abbrev PyStr := List Char

/-- Coerce a Lean string literal into the Python-string model. -/
def pstr (s : String) : PyStr := s.data

/-- Python exceptions (and, for stating spec-level claims, the spec's typed
error vocabulary).  The constructors up to `jsonDecodeError` are the actual
Python exception classes the embedded source can raise; `jsonDecodeError` is
what `json.loads` raises on malformed text.  `invalidQualifier` is modelled
from the spec: it is the spec's typed error name for a bad channel qualifier;
the embedded source never produces it. -/
inductive PyExc : Type where
  | typeError
  | valueError
  | indexError
  | keyError
  | attributeError
  | unboundLocalError
  | jsonDecodeError
  | invalidQualifier
deriving DecidableEq, Repr

/-- Python's `str.split(sep)` for a single-character separator.  Like the
Python original it never returns an empty list: splitting the empty string
yields `[[]]`. -/
def splitChar (c : Char) : PyStr → List PyStr
  | [] => [[]]
  | x :: xs =>
    if x = c then [] :: splitChar c xs
    else
      match splitChar c xs with
      | [] => [[x]]
      | p :: ps => (x :: p) :: ps

/-- The digits-only core of Python's `int(str)`: all characters must be
decimal digits and there must be at least one. -/
def natOfDigits (cs : List Char) : Option Nat :=
  if cs = [] then none
  else if cs.all Char.isDigit then
    some (cs.foldl (fun a ch => 10 * a + (ch.toNat - 48)) 0)
  else none

/-- Unsigned decimal core of Python's `float(str)`: digits with at most one
dot, at least one digit overall.  (Exponents, inf/nan, whitespace and
underscores accepted by CPython are outside the inputs exercised here and are
not modelled.) -/
def parseUnsignedDecimal (cs : PyStr) : Option Rat :=
  match splitChar '.' cs with
  | [w] => (natOfDigits w).map (fun n => (n : Rat))
  | [w, f] =>
    if w = [] ∧ f = [] then none
    else
      match (if w = [] then some 0 else natOfDigits w),
            (if f = [] then some 0 else natOfDigits f) with
      | some a, some b => some ((a : Rat) + (b : Rat) / ((10 : Rat) ^ f.length))
      | _, _ => none
  | _ => none

/-- Signed decimal parsing, the model of Python's `float(str)`. -/
def parseDecimal (cs : PyStr) : Option Rat :=
  match cs with
  | [] => none
  | ch :: rest =>
    if ch = '-' then (parseUnsignedDecimal rest).map (fun q => -q)
    else if ch = '+' then parseUnsignedDecimal rest
    else parseUnsignedDecimal (ch :: rest)

/-- Model of Python's `int(str)`: optional sign followed by digits, otherwise
`ValueError`. -/
def pyIntOfStr (s : PyStr) : Except PyExc Int :=
  match s with
  | [] => .error .valueError
  | ch :: rest =>
    if ch = '-' then
      match natOfDigits rest with
      | some n => .ok (-(n : Int))
      | none => .error .valueError
    else if ch = '+' then
      match natOfDigits rest with
      | some n => .ok ((n : Int))
      | none => .error .valueError
    else
      match natOfDigits (ch :: rest) with
      | some n => .ok ((n : Int))
      | none => .error .valueError

/-- JSON values as produced by `json.loads`. -/
inductive Json : Type where
  | null : Json
  | bool : Bool → Json
  | num : Rat → Json
  | str : PyStr → Json
  | arr : List Json → Json
  | obj : List (PyStr × Json) → Json

/-- Python list indexing restricted to nonnegative indices (used for the
`pieces[k]` lookups on the result of `split`). -/
def listIndex {α : Type} : List α → Nat → Except PyExc α
  | [], _ => .error .indexError
  | a :: _, 0 => .ok a
  | _ :: l, n + 1 => listIndex l n

/-- Python sequence indexing with negative-index wraparound. -/
def listIndexInt {α : Type} (xs : List α) (i : Int) : Except PyExc α :=
  let j : Int := if i < 0 then i + xs.length else i
  if 0 ≤ j then
    match xs.get? j.toNat with
    | some a => .ok a
    | none => .error .indexError
  else .error .indexError

/-- Python subscription `d[i]` with an integer index: works on lists and
strings (a string index yields a one-character string); an integer key on a
dict whose keys are strings raises `KeyError`; other shapes raise
`TypeError`. -/
def pyIndex (d : Json) (i : Int) : Except PyExc Json :=
  match d with
  | .arr xs => listIndexInt xs i
  | .str s => (listIndexInt s i).map (fun ch => .str [ch])
  | .obj _ => .error .keyError
  | _ => .error .typeError

/-- Extract the string out of a JSON value; calling a `str` method such as
`.split` on any other shape raises `AttributeError`. -/
def pyStrOf (d : Json) : Except PyExc PyStr :=
  match d with
  | .str s => .ok s
  | _ => .error .attributeError

/-- Model of Python's `float(x)` on a decoded JSON value. -/
def pyFloat (d : Json) : Except PyExc Rat :=
  match d with
  | .num q => .ok q
  | .bool b => .ok (if b then 1 else 0)
  | .str s =>
    match parseDecimal s with
    | some q => .ok q
    | none => .error .valueError
  | _ => .error .typeError

/-- Model of Python's `int(x)` on a decoded JSON value (truncation toward
zero on numbers, digit parsing on strings). -/
def pyInt (d : Json) : Except PyExc Int :=
  match d with
  | .num q => .ok (q.num / (q.den : Int))
  | .bool b => .ok (if b then 1 else 0)
  | .str s => pyIntOfStr s
  | _ => .error .typeError

/-- Model of Python iteration `for t in payload`: lists yield elements,
strings yield one-character strings, dicts yield their keys, other shapes
raise `TypeError`. -/
def pyIter (d : Json) : Except PyExc (List Json) :=
  match d with
  | .arr xs => .ok xs
  | .str s => .ok (s.map (fun ch => Json.str [ch]))
  | .obj kvs => .ok (kvs.map (fun kv => Json.str kv.1))
  | _ => .error .typeError

/-- Python `j == s` for a string literal `s`: true exactly when `j` is that
string; comparison between different types is `False`, never an error. -/
def Json.eqStr (j : Json) (s : PyStr) : Bool :=
  match j with
  | .str t => t == s
  | _ => false

/-- Does `s` start with the segment `pat`? -/
def startsWithSeg : PyStr → PyStr → Bool
  | [], _ => true
  | _ :: _, [] => false
  | p :: ps, c :: cs => p == c && startsWithSeg ps cs

/-- Is `pat` a contiguous segment of `s` (Python's `pat in s` on strings)? -/
def isSegment (pat : PyStr) (s : PyStr) : Bool :=
  match s with
  | [] => pat.isEmpty
  | _ :: rest => startsWithSeg pat s || isSegment pat rest

/-- Python's `str.startswith` with a one-character needle. -/
def startsWithChar (c : Char) (s : PyStr) : Bool :=
  match s with
  | [] => false
  | x :: _ => x == c

/-- Python's `pat in x` where `pat` is a string and `x` is an arbitrary
decoded JSON value: substring test on strings, membership on lists, key
membership on dicts, `TypeError` otherwise. -/
def pyContainsStr (x : Json) (pat : PyStr) : Except PyExc Bool :=
  match x with
  | .str s => .ok (isSegment pat s)
  | .arr xs => .ok (xs.any (fun e => Json.eqStr e pat))
  | .obj kvs => .ok (kvs.any (fun kv => kv.1 == pat))
  | _ => .error .typeError

/-- The `EventType` enum of the source: message event types, keyed by their
string values.  The source's `default = ERROR` line is a Python enum alias
and adds no member. -/
inductive EventType : Type where
  | PING | PONG | HEARTBEAT | SYSTEM_STATUS | SUBSCRIBE | UNSUBSCRIBE
  | SUBSCRIPTION_STATUS | TICKER | OHLC | TRADE | SPREAD | BOOK
  | OWN_TRADES | OPEN_ORDERS | ADD_ORDER | CANCEL_ORDER | CANCEL_ALL
  | CANCEL_ALL_ORDERS_AFTER | ERROR
deriving DecidableEq, Repr

/-- The string value of each `EventType` member, exactly as in the source. -/
def EventType.value : EventType → PyStr
  | .PING => pstr "ping"
  | .PONG => pstr "pong"
  | .HEARTBEAT => pstr "heartbeat"
  | .SYSTEM_STATUS => pstr "systemStatus"
  | .SUBSCRIBE => pstr "subscribe"
  | .UNSUBSCRIBE => pstr "unsubscribe"
  | .SUBSCRIPTION_STATUS => pstr "subscriptionStatus"
  | .TICKER => pstr "ticker"
  | .OHLC => pstr "ohlc"
  | .TRADE => pstr "trade"
  | .SPREAD => pstr "spread"
  | .BOOK => pstr "book"
  | .OWN_TRADES => pstr "ownTrades"
  | .OPEN_ORDERS => pstr "openOrders"
  | .ADD_ORDER => pstr "addOrder"
  | .CANCEL_ORDER => pstr "cancelOrder"
  | .CANCEL_ALL => pstr "cancelAll"
  | .CANCEL_ALL_ORDERS_AFTER => pstr "cancelAllOrdersAfter"
  | .ERROR => pstr "error"

/-- Python's `EventType(v)`: value lookup among the enum members, raising
`ValueError` when no member has that value. -/
def EventType.ofValue (v : PyStr) : Except PyExc EventType :=
  if v = pstr "ping" then .ok .PING
  else if v = pstr "pong" then .ok .PONG
  else if v = pstr "heartbeat" then .ok .HEARTBEAT
  else if v = pstr "systemStatus" then .ok .SYSTEM_STATUS
  else if v = pstr "subscribe" then .ok .SUBSCRIBE
  else if v = pstr "unsubscribe" then .ok .UNSUBSCRIBE
  else if v = pstr "subscriptionStatus" then .ok .SUBSCRIPTION_STATUS
  else if v = pstr "ticker" then .ok .TICKER
  else if v = pstr "ohlc" then .ok .OHLC
  else if v = pstr "trade" then .ok .TRADE
  else if v = pstr "spread" then .ok .SPREAD
  else if v = pstr "book" then .ok .BOOK
  else if v = pstr "ownTrades" then .ok .OWN_TRADES
  else if v = pstr "openOrders" then .ok .OPEN_ORDERS
  else if v = pstr "addOrder" then .ok .ADD_ORDER
  else if v = pstr "cancelOrder" then .ok .CANCEL_ORDER
  else if v = pstr "cancelAll" then .ok .CANCEL_ALL
  else if v = pstr "cancelAllOrdersAfter" then .ok .CANCEL_ALL_ORDERS_AFTER
  else if v = pstr "error" then .ok .ERROR
  else .error .valueError

/-- The `SubscriptionInterval` int enum: OHLC bar widths in minutes. -/
inductive SubscriptionInterval : Type where
  | X_1MIN | X_5MIN | X_15MIN | X_30MIN | X_1HOUR | X_4HOUR
  | X_1DAY | X_7DAY | X_15DAY
deriving DecidableEq, Repr

/-- Integer value of each `SubscriptionInterval` member. -/
def SubscriptionInterval.value : SubscriptionInterval → Int
  | .X_1MIN => 1
  | .X_5MIN => 5
  | .X_15MIN => 15
  | .X_30MIN => 30
  | .X_1HOUR => 60
  | .X_4HOUR => 240
  | .X_1DAY => 1440
  | .X_7DAY => 10080
  | .X_15DAY => 21600

/-- Python's `SubscriptionInterval(n)`: value lookup, `ValueError` when `n`
is not a recognized interval. -/
def SubscriptionInterval.ofValue (n : Int) : Except PyExc SubscriptionInterval :=
  if n = 1 then .ok .X_1MIN
  else if n = 5 then .ok .X_5MIN
  else if n = 15 then .ok .X_15MIN
  else if n = 30 then .ok .X_30MIN
  else if n = 60 then .ok .X_1HOUR
  else if n = 240 then .ok .X_4HOUR
  else if n = 1440 then .ok .X_1DAY
  else if n = 10080 then .ok .X_7DAY
  else if n = 21600 then .ok .X_15DAY
  else .error .valueError

/-- The recognized OHLC interval values. -/
def ohlcIntervals : List Int := [1, 5, 15, 30, 60, 240, 1440, 10080, 21600]

/-- The `SubscriptionDepth` int enum: order book depths. -/
inductive SubscriptionDepth : Type where
  | DEPTH_10 | DEPTH_25 | DEPTH_100 | DEPTH_500 | DEPTH_1000
deriving DecidableEq, Repr

/-- Python's `SubscriptionDepth(n)`: value lookup, `ValueError` when `n` is
not a recognized depth. -/
def SubscriptionDepth.ofValue (n : Int) : Except PyExc SubscriptionDepth :=
  if n = 10 then .ok .DEPTH_10
  else if n = 25 then .ok .DEPTH_25
  else if n = 100 then .ok .DEPTH_100
  else if n = 500 then .ok .DEPTH_500
  else if n = 1000 then .ok .DEPTH_1000
  else .error .valueError

/-- The `OrderSide` enum. -/
inductive OrderSide : Type where
  | BUY | SELL | ERROR
deriving DecidableEq, Repr

/-- The `OrderType` enum. -/
inductive OrderType : Type where
  | MARKET | LIMIT | STOP_LOSS | TAKE_PROFIT | STOP_LOSS_LIMIT
  | TAKE_PROFIT_LIMIT | SETTLE_POSITION | ERROR
deriving DecidableEq, Repr

/-- Currency pair with base and quote currency. -/
structure AssetPair : Type where
  base : PyStr
  quote : PyStr
deriving DecidableEq, Repr

/-- Body of `AssetPair.__init__` after `pieces = pair.split("/")`:
`self.base = pieces[0]`, `self.quote = pieces[1]`.  There is no validation:
extra components are silently dropped, empty components are accepted, and a
string without `/` raises `IndexError` from the `pieces[1]` lookup. -/
def AssetPair.ofPieces (pieces : List PyStr) : Except PyExc AssetPair := do
  let base ← listIndex pieces 0
  let quote ← listIndex pieces 1
  return AssetPair.mk base quote

/-- Embedding of `AssetPair.__init__`. -/
def AssetPair.mk? (pair : PyStr) : Except PyExc AssetPair :=
  AssetPair.ofPieces (splitChar '/' pair)

/-- Parsed channel name: event kind plus optional depth/interval qualifier. -/
structure ChannelName : Type where
  event : EventType
  depth : Option SubscriptionDepth
  interval : Option SubscriptionInterval
deriving DecidableEq, Repr

/-- Body of `ChannelName.__init__` after `pieces = channel_name.split('-')`:
look the first piece up in `EventType`, then parse the qualifier (with
`int(pieces[1])` and the corresponding enum lookup) only for the `ohlc` and
`book` kinds; every other kind ignores any qualifier pieces. -/
def ChannelName.ofPieces (pieces : List PyStr) : Except PyExc ChannelName := do
  let p0 ← listIndex pieces 0
  let event ← EventType.ofValue p0
  if event = EventType.OHLC then
    let p1 ← listIndex pieces 1
    let n ← pyIntOfStr p1
    let itv ← SubscriptionInterval.ofValue n
    return ChannelName.mk event none (some itv)
  else if event = EventType.BOOK then
    let p1 ← listIndex pieces 1
    let n ← pyIntOfStr p1
    let dep ← SubscriptionDepth.ofValue n
    return ChannelName.mk event (some dep) none
  else
    return ChannelName.mk event none none

/-- Embedding of `ChannelName.__init__`. -/
def ChannelName.mk? (channel_name : PyStr) : Except PyExc ChannelName :=
  ChannelName.ofPieces (splitChar '-' channel_name)

/-- Embedding of `ArrayMessage.__init__`: pair from the last element, channel
name from the second-to-last, and `self._raw = payload[1]` (only element 1,
whatever the array length).  No length check is performed. -/
structure ArrayMessage : Type where
  pair : AssetPair
  channel : ChannelName
  raw : Json

/-- Constructor of `ArrayMessage`, in source evaluation order. -/
def ArrayMessage.mk? (payload : Json) : Except PyExc ArrayMessage := do
  let pj ← pyIndex payload (-1)
  let ps ← pyStrOf pj
  let pair ← AssetPair.mk? ps
  let cj ← pyIndex payload (-2)
  let cs ← pyStrOf cj
  let channel ← ChannelName.mk? cs
  let raw ← pyIndex payload 1
  return ArrayMessage.mk pair channel raw

/-- Result of `TradeMessage.__init__`.  The source assigns `self.price`
twice (`float(self._raw[0])` then `float(self._raw[1])`), so the stored
price is actually the volume slot and no volume field exists. -/
structure TradeMessage : Type where
  pair : AssetPair
  channel : ChannelName
  price : Rat
  time : Rat
  side : OrderSide
  order_type : OrderType

/-- Embedding of `TradeMessage.__init__`: after `ArrayMessage.__init__`,
field-by-field decoding of `self._raw`.  The side is `BUY` when the code
starts with `b` and silently `SELL` otherwise; the order type silently
falls back to `OrderType.ERROR` when the code starts with neither `m` nor
`l`. -/
def TradeMessage.mk? (payload : Json) : Except PyExc TradeMessage := do
  let am ← ArrayMessage.mk? payload
  let r0 ← pyIndex am.raw 0
  let _price0 ← pyFloat r0
  let r1 ← pyIndex am.raw 1
  let price ← pyFloat r1
  let r2 ← pyIndex am.raw 2
  let time ← pyFloat r2
  let r3 ← pyIndex am.raw 3
  let s3 ← pyStrOf r3
  let side := if startsWithChar 'b' s3 then OrderSide.BUY else OrderSide.SELL
  let r4 ← pyIndex am.raw 4
  let s4 ← pyStrOf r4
  let order_type :=
    if startsWithChar 'm' s4 then OrderType.MARKET
    else if startsWithChar 'l' s4 then OrderType.LIMIT
    else OrderType.ERROR
  return TradeMessage.mk am.pair am.channel price time side order_type

/-- One decoded trade row as built by `parse_trade`: the side and type are
the literal strings the source stores in its dict. -/
structure TradeRow : Type where
  price : Rat
  volume : Rat
  timestamp : Rat
  side : PyStr
  type : PyStr
deriving DecidableEq, Repr

/-- The dict built for a single iteration of the `parse_trade` loop, in
source evaluation order.  Note the exact-equality tests `t[3] == 'b'` and
`t[4] == 'm'`: every other side code silently becomes `'sell'` and every
other order-type code silently becomes `'limit'`. -/
def parse_trade_row (t : Json) : Except PyExc TradeRow := do
  let x0 ← pyIndex t 0
  let price ← pyFloat x0
  let x1 ← pyIndex t 1
  let volume ← pyFloat x1
  let x2 ← pyIndex t 2
  let timestamp ← pyFloat x2
  let x3 ← pyIndex t 3
  let side := if Json.eqStr x3 (pstr "b") then pstr "buy" else pstr "sell"
  let x4 ← pyIndex t 4
  let ty := if Json.eqStr x4 (pstr "m") then pstr "market" else pstr "limit"
  return TradeRow.mk price volume timestamp side ty

/-- The `parse_trade` loop body over the iterated elements: rows are decoded
in order and the first exception aborts the whole loop, discarding every row
decoded so far. -/
def parse_trade_go : List Json → Except PyExc (List TradeRow)
  | [] => .ok []
  | t :: rest => do
    let r ← parse_trade_row t
    let rs ← parse_trade_go rest
    return r :: rs

/-- Embedding of `parse_trade`: iterate over the payload and decode each
element; any failure propagates as the exception of the first bad row. -/
def parse_trade (payload : Json) : Except PyExc (List TradeRow) := do
  let ts ← pyIter payload
  parse_trade_go ts

/-- The dict built by `parse_ohlc`. -/
structure OhlcRow : Type where
  start : Rat
  end_ : Rat
  o : Rat
  h : Rat
  l : Rat
  c : Rat
  vwap : Rat
  v : Rat
  count : Int
deriving DecidableEq, Repr

/-- Embedding of `parse_ohlc`: positional float coercions of elements 0-7
and an int coercion of element 8, in source evaluation order. -/
def parse_ohlc (payload : Json) : Except PyExc OhlcRow := do
  let x0 ← pyIndex payload 0
  let start ← pyFloat x0
  let x1 ← pyIndex payload 1
  let end_ ← pyFloat x1
  let x2 ← pyIndex payload 2
  let o ← pyFloat x2
  let x3 ← pyIndex payload 3
  let h ← pyFloat x3
  let x4 ← pyIndex payload 4
  let l ← pyFloat x4
  let x5 ← pyIndex payload 5
  let c ← pyFloat x5
  let x6 ← pyIndex payload 6
  let vwap ← pyFloat x6
  let x7 ← pyIndex payload 7
  let v ← pyFloat x7
  let x8 ← pyIndex payload 8
  let count ← pyInt x8
  return OhlcRow.mk start end_ o h l c vwap v count

/-- The `'data'` slot of the dict returned by `parse_message`. -/
inductive PMData : Type where
  | trades : List TradeRow → PMData
  | ohlc : OhlcRow → PMData

/-- The dict `out` returned by `parse_message`: `'channel'` and `'pair'` are
stored as the raw JSON values `d[-2]` and `d[-1]`; `'data'` is present only
when one of the payload decoders ran to completion. -/
structure PMOut : Type where
  channel : Json
  pair : Json
  data : Option PMData

/-- The `try` body of `parse_message`, tracking the state of the local
variable `out`.  The result is the value of `out` when the body finishes or
when an exception is raised and caught by the blanket `except` (Python
locals persist past a caught exception): `none` means `out` was never
assigned.

In the dict branch the source compares `d.get('event', '')` with
`'subscriptionStatus'` and, on a match, calls `SubscriptionStatus(d)` -- an
enum value lookup on a dict, which raises and is caught; on no match the
branch does nothing.  Either way `out` is never assigned there.

In the `else` branch, `payload = d[1]` and the dict literal
`{'channel': d[-2], 'pair': d[-1]}` are evaluated in order; once the dict
literal has been built, `out` survives any later exception from the payload
decoders. -/
def pm_body (d : Json) : Option PMOut :=
  match d with
  | .obj _ => none
  | _ =>
    match pyIndex d 1 with
    | .error _ => none
    | .ok payload =>
      match pyIndex d (-2) with
      | .error _ => none
      | .ok ch =>
        match pyIndex d (-1) with
        | .error _ => none
        | .ok pr =>
          match pyContainsStr ch (pstr "ohlc") with
          | .error _ => some (PMOut.mk ch pr none)
          | .ok true =>
            match parse_ohlc payload with
            | .error _ => some (PMOut.mk ch pr none)
            | .ok orow => some (PMOut.mk ch pr (some (PMData.ohlc orow)))
          | .ok false =>
            if Json.eqStr ch (pstr "trade") then
              match parse_trade payload with
              | .error _ => some (PMOut.mk ch pr none)
              | .ok rows => some (PMOut.mk ch pr (some (PMData.trades rows)))
            else
              some (PMOut.mk ch pr none)

/-- Embedding of `parse_message`.  The argument is the result of
`json.loads(msg)`: `.error` stands for the `json.JSONDecodeError` raised on
malformed text (all malformed frames funnel through that single exception).
Every exception inside the `try` body is caught and printed, after which the
function executes `return out`; since `out` is assigned only in the array
branch, that statement itself raises `UnboundLocalError` whenever `out` was
never assigned, and that exception escapes the function. -/
def parse_message (load : Except PyExc Json) : Except PyExc PMOut :=
  match load with
  | .error _ => .error .unboundLocalError
  | .ok d =>
    match pm_body d with
    | none => .error .unboundLocalError
    | some out => .ok out

/-- Embedding of the observable behaviour of `parse_message2`.  The source
function decodes and prints inside a `try` whose blanket
`except Exception as e: print(e)` swallows every exception (in particular
the `json.JSONDecodeError` of a malformed frame, for which the rest of the
body never runs), and it contains no `return` statement, so every call falls
off the end and returns Python's `None` (modelled as `Except.ok none`); no
exception ever escapes and no value is ever produced. -/
def parse_message2 (load : Except PyExc Json) : Except PyExc (Option PMOut) :=
  match load with
  | .error _ => .ok none
  | .ok _ => .ok none

/-- Decidable equality of `Except` results, used to settle concrete decoder
runs by `decide`. -/
instance exceptDecEq {ε α : Type} [DecidableEq ε] [DecidableEq α] :
    DecidableEq (Except ε α) := fun a b =>
  match a, b with
  | .error e, .error f =>
    if h : e = f then isTrue (by rw [h])
    else isFalse (fun hc => h (by cases hc; rfl))
  | .ok x, .ok y =>
    if h : x = y then isTrue (by rw [h])
    else isFalse (fun hc => h (by cases hc; rfl))
  | .error _, .ok _ => isFalse (fun hc => Except.noConfusion hc)
  | .ok _, .error _ => isFalse (fun hc => Except.noConfusion hc)

/-- Splitting never produces the empty list of pieces. -/
theorem splitChar_ne_nil (c : Char) (s : PyStr) : splitChar c s ≠ [] := by
  induction s with
  | nil => simp [splitChar]
  | cons x xs ih =>
    by_cases hx : x = c
    · simp [splitChar, hx]
    · simp only [splitChar, if_neg hx]
      cases h : splitChar c xs with
      | nil => simp
      | cons p ps => simp

/-- Splitting a string of the form `a ++ c :: b` where `a` is separator-free
peels off `a` as the first piece. -/
theorem splitChar_append_cons (c : Char) (a b : PyStr) (ha : c ∉ a) :
    splitChar c (a ++ c :: b) = a :: splitChar c b := by
  induction a with
  | nil => simp [splitChar]
  | cons x xs ih =>
    have hx : x ≠ c := fun h => ha (h ▸ List.mem_cons_self x xs)
    have hxs : c ∉ xs := fun h => ha (List.mem_cons_of_mem _ h)
    simp only [List.cons_append, splitChar, if_neg hx, List.append_eq]
    rw [ih hxs]

/-- A separator-free string is its own single piece. -/
theorem splitChar_no_sep (c : Char) (s : PyStr) (h : c ∉ s) :
    splitChar c s = [s] := by
  induction s with
  | nil => rfl
  | cons x xs ih =>
    have hx : x ≠ c := fun hc => h (hc ▸ List.mem_cons_self x xs)
    have hxs : c ∉ xs := fun hc => h (List.mem_cons_of_mem _ hc)
    simp only [splitChar, if_neg hx]
    rw [ih hxs]

/-- A single-piece split means the string was that piece. -/
theorem splitChar_eq_single (c : Char) (s t : PyStr)
    (h : splitChar c s = [t]) : s = t := by
  induction s generalizing t with
  | nil =>
    simp only [splitChar] at h
    exact (List.cons.inj h).1
  | cons x xs ih =>
    by_cases hx : x = c
    · simp only [splitChar, if_pos hx] at h
      exact absurd (List.cons.inj h).2 (splitChar_ne_nil c xs)
    · simp only [splitChar, if_neg hx] at h
      cases hs : splitChar c xs with
      | nil => exact absurd hs (splitChar_ne_nil c xs)
      | cons p ps =>
        rw [hs] at h
        injection h with h1 h2
        subst h2
        rw [← h1, ih p (by rw [hs])]

/-- A two-piece split recovers the original string by joining the pieces
with the separator. -/
theorem splitChar_eq_pair (c : Char) (s b q : PyStr)
    (h : splitChar c s = [b, q]) : s = b ++ c :: q := by
  induction s generalizing b with
  | nil =>
    simp only [splitChar] at h
    injection h with _ h2
    exact absurd h2.symm (by simp)
  | cons x xs ih =>
    by_cases hx : x = c
    · subst hx
      simp only [splitChar, if_pos rfl] at h
      injection h with h1 h2
      rw [← h1, List.nil_append]
      rw [splitChar_eq_single x xs q h2]
    · simp only [splitChar, if_neg hx] at h
      cases hs : splitChar c xs with
      | nil => exact absurd hs (splitChar_ne_nil c xs)
      | cons p ps =>
        rw [hs] at h
        injection h with h1 h2
        subst h2
        rw [← h1, List.cons_append]
        rw [ih p (by rw [hs])]

/-- For every recognized interval value there is an enum member carrying it. -/
theorem SubscriptionInterval.ofValue_mem (n : Int) (h : n ∈ ohlcIntervals) :
    ∃ itv : SubscriptionInterval,
      SubscriptionInterval.ofValue n = .ok itv ∧ itv.value = n := by
  simp [ohlcIntervals] at h
  rcases h with h | h | h | h | h | h | h | h | h <;> subst h <;> exact ⟨_, rfl, rfl⟩

/-- Outside the recognized interval values the enum lookup raises
`ValueError`. -/
theorem SubscriptionInterval.ofValue_not_mem (n : Int) (h : n ∉ ohlcIntervals) :
    SubscriptionInterval.ofValue n = .error .valueError := by
  simp [ohlcIntervals] at h
  obtain ⟨h1, h5, h15, h30, h60, h240, h1440, h10080, h21600⟩ := h
  unfold SubscriptionInterval.ofValue
  rw [if_neg h1, if_neg h5, if_neg h15, if_neg h30, if_neg h60, if_neg h240,
    if_neg h1440, if_neg h10080, if_neg h21600]

/-- The channel-name body on pieces `["ohlc", s]` reduces to qualifier
parsing of `s`. -/
theorem ChannelName.ofPieces_ohlc (s : PyStr) :
    ChannelName.ofPieces [pstr "ohlc", s]
      = Except.bind (pyIntOfStr s) (fun n =>
          Except.bind (SubscriptionInterval.ofValue n) (fun itv =>
            Except.ok (ChannelName.mk EventType.OHLC none (some itv)))) := rfl

/-- C1 (code bug): an input frame whose text is not well-formed JSON makes
`json.loads` raise; the argument `Except.error e` stands for that raised
decode error, through which every malformed frame funnels.  Neither decoder
returns a typed `JsonDecodeError` failure: `parse_message` catches the JSON
error but then lets `UnboundLocalError` escape the decoder boundary from
`return out`, and `parse_message2` swallows the error and returns `None`. -/
theorem c1_malformed_json_behaviour (e : PyExc) :
    parse_message (Except.error e) = Except.error PyExc.unboundLocalError ∧
    parse_message2 (Except.error e) = Except.ok none :=
  ⟨rfl, rfl⟩

/-- C2 (code bug): trade side/order-type codes outside the recognized ones
never fail with an `UnrecognizedCode` error; they silently default.
`parse_trade` maps the `'b'`-prefixed side code `"bx"` to `'sell'` (exact
equality with `'b'` is tested, not a prefix) and the unknown order-type code
`"z"` to `'limit'`; `TradeMessage` maps the unknown side code `"x"` to
`SELL` and the unknown order-type code `"z"` to the enum value
`OrderType.ERROR`. -/
theorem c2_side_code_silent_default :
    parse_trade (Json.arr [Json.arr [Json.str (pstr "1.0"), Json.str (pstr "2.0"),
        Json.str (pstr "3.0"), Json.str (pstr "bx"), Json.str (pstr "z"),
        Json.str (pstr "")]])
      = Except.ok [TradeRow.mk 1 2 3 (pstr "sell") (pstr "limit")] ∧
    TradeMessage.mk? (Json.arr [Json.num 340,
        Json.arr [Json.str (pstr "1.0"), Json.str (pstr "2.0"), Json.str (pstr "3.0"),
          Json.str (pstr "x"), Json.str (pstr "z"), Json.str (pstr "")],
        Json.str (pstr "trade"), Json.str (pstr "XBT/USD")])
      = Except.ok (TradeMessage.mk (AssetPair.mk (pstr "XBT") (pstr "USD"))
          (ChannelName.mk EventType.TRADE none none) 2 3 OrderSide.SELL OrderType.ERROR) :=
  ⟨by with_unfolding_all rfl, by with_unfolding_all rfl⟩

/-- C3 (code bug): a trade batch with one valid row and one row missing
fields is a total failure: the `IndexError` of the bad row propagates out of
`parse_trade` and the successfully decoded first row is discarded; no
aggregated per-row failure is reported. -/
theorem c3_trade_batch_total_failure :
    parse_trade (Json.arr [
      Json.arr [Json.str (pstr "5698.40000"), Json.str (pstr "1.00000000"),
        Json.str (pstr "1542057314.748456"), Json.str (pstr "s"),
        Json.str (pstr "l"), Json.str (pstr "")],
      Json.arr [Json.str (pstr "5698.4")]])
      = Except.error PyExc.indexError := rfl

/-- C5 (code bug): there is no minimum-length check and no
`MalformedArrayMessage`: a two-element array frame is decoded successfully,
with the channel name and pair extracted by negative indexing (elements 0
and 1 of the length-2 array) and no integer channel id extracted at all. -/
theorem c5_short_array_no_length_check :
    parse_message (Except.ok (Json.arr [Json.str (pstr "trade"), Json.str (pstr "XBT/USD")]))
      = Except.ok (PMOut.mk (Json.str (pstr "trade")) (Json.str (pstr "XBT/USD")) none) := rfl

/-- C6 (code bug): asset-pair parsing performs no validation: a three-token
string succeeds with the third token silently dropped, an empty quote token
is accepted, and a separator-free string raises `IndexError` rather than
failing with a typed `InvalidPair`. -/
theorem c6_asset_pair_no_validation :
    AssetPair.mk? (pstr "A/B/C") = Except.ok (AssetPair.mk (pstr "A") (pstr "B")) ∧
    AssetPair.mk? (pstr "A/") = Except.ok (AssetPair.mk (pstr "A") (pstr "")) ∧
    AssetPair.mk? (pstr "ABC") = Except.error PyExc.indexError :=
  ⟨rfl, rfl, rfl⟩

/-- C7: parsing a valid `BASE/QUOTE` string (exactly two non-empty
components) succeeds with that base and quote, and rejoining them with `/`
reproduces the original string exactly. -/
theorem c7_asset_pair_round_trip (s b q : PyStr)
    (hs : splitChar '/' s = [b, q]) (_hb : b ≠ []) (_hq : q ≠ []) :
    AssetPair.mk? s = Except.ok (AssetPair.mk b q) ∧ b ++ '/' :: q = s := by
  constructor
  · unfold AssetPair.mk?
    rw [hs]
    rfl
  · exact (splitChar_eq_pair '/' s b q hs).symm

/-- C7 witness: the round trip at the concrete pair string `XBT/USD`. -/
theorem c7_witness :
    AssetPair.mk? (pstr "XBT/USD") = Except.ok (AssetPair.mk (pstr "XBT") (pstr "USD")) ∧
    pstr "XBT" ++ '/' :: pstr "USD" = pstr "XBT/USD" :=
  c7_asset_pair_round_trip (pstr "XBT/USD") (pstr "XBT") (pstr "USD")
    (by decide) (by decide) (by decide)

/-- C8: decoding the documented example trade frame yields exactly one
decoded trade with price 5698.40, volume 1.0, side `'sell'` and order type
`'limit'`, and the frame's pair string parses to base `XBT`, quote `USD`. -/
theorem c8_example_trade_frame :
    parse_message (Except.ok (Json.arr [Json.num 340,
        Json.arr [Json.arr [Json.str (pstr "5698.40000"), Json.str (pstr "1.00000000"),
          Json.str (pstr "1542057314.748456"), Json.str (pstr "s"),
          Json.str (pstr "l"), Json.str (pstr "")]],
        Json.str (pstr "trade"), Json.str (pstr "XBT/USD")]))
      = Except.ok (PMOut.mk (Json.str (pstr "trade")) (Json.str (pstr "XBT/USD"))
          (some (PMData.trades [TradeRow.mk (5698.4 : Rat) 1 (1542057314.748456 : Rat)
            (pstr "sell") (pstr "limit")]))) ∧
    AssetPair.mk? (pstr "XBT/USD") = Except.ok (AssetPair.mk (pstr "XBT") (pstr "USD")) :=
  ⟨by with_unfolding_all rfl, rfl⟩

/-- C9: for every frame whose top-level JSON value is a keyed object,
`parse_message` reaches `return out` with the local variable `out` never
assigned (it is assigned only in the array branch), so the call fails with
`UnboundLocalError` instead of returning a result. -/
theorem c9_dict_unbound_local (kvs : List (PyStr × Json)) :
    parse_message (Except.ok (Json.obj kvs)) = Except.error PyExc.unboundLocalError := rfl

/-- C10: for every recognized subscription kind other than ohlc and book,
channel-name parsing accepts an input carrying any qualifier suffix after
`-` and silently discards it, succeeding with the interval and depth fields
both empty. -/
theorem c10_qualifier_silently_discarded (k : EventType) (suffix : PyStr)
    (hk : k ∈ [EventType.TICKER, EventType.TRADE, EventType.SPREAD,
      EventType.OWN_TRADES, EventType.OPEN_ORDERS]) :
    ChannelName.mk? (EventType.value k ++ '-' :: suffix)
      = Except.ok (ChannelName.mk k none none) := by
  have hsp : splitChar '-' (EventType.value k ++ '-' :: suffix)
      = EventType.value k :: splitChar '-' suffix := by
    apply splitChar_append_cons
    fin_cases hk <;> decide
  fin_cases hk <;> (unfold ChannelName.mk?; rw [hsp]; rfl)

/-- C10 witness: `trade-999` parses to the trade kind with no qualifier. -/
theorem c10_witness :
    ChannelName.mk? (pstr "trade-999") = Except.ok (ChannelName.mk EventType.TRADE none none) :=
  c10_qualifier_silently_discarded EventType.TRADE (pstr "999") (by decide)

/-- C4 counterexample: for the out-of-set interval 2, channel-name parsing
does fail, but with a plain `ValueError` from the enum lookup, not with the
spec's typed error `InvalidQualifier`; the source has no such typed error. -/
theorem c4_counterexample :
    ChannelName.mk? (pstr "ohlc-2") ≠ Except.error PyExc.invalidQualifier ∧
    ChannelName.mk? (pstr "ohlc-2") = Except.error PyExc.valueError := by
  constructor
  · intro h
    rw [show ChannelName.mk? (pstr "ohlc-2") = Except.error PyExc.valueError from rfl] at h
    simp at h
  · rfl

/-- C4 (amended): for every channel name `ohlc-<interval>` with a numeric
interval, parsing succeeds exactly when the interval is in the recognized
set {1, 5, 15, 30, 60, 240, 1440, 10080, 21600}, and the parsed identifier
then carries that same interval; for every numeric interval outside the set
parsing fails by raising `ValueError` (not a typed `InvalidQualifier`). -/
theorem c4_ohlc_interval_amended (s : PyStr) (n : Nat)
    (hds : natOfDigits s = some n) :
    (((n : Int) ∈ ohlcIntervals →
        ∃ itv : SubscriptionInterval,
          ChannelName.mk? (pstr "ohlc" ++ '-' :: s)
            = Except.ok (ChannelName.mk EventType.OHLC none (some itv)) ∧
          itv.value = (n : Int)) ∧
     ((n : Int) ∉ ohlcIntervals →
        ChannelName.mk? (pstr "ohlc" ++ '-' :: s) = Except.error PyExc.valueError)) := by
  unfold natOfDigits at hds
  split at hds
  · exact absurd hds (by simp)
  next hne =>
    split at hds
    next hdig =>
      have hnm : '-' ∉ s := by
        intro hmem
        have hd := List.all_eq_true.mp hdig '-' hmem
        exact absurd hd (by decide)
      obtain ⟨ch, rest, rfl⟩ : ∃ ch rest, s = ch :: rest := by
        cases s with
        | nil => exact absurd rfl hne
        | cons ch rest => exact ⟨ch, rest, rfl⟩
      have hch : ch.isDigit = true :=
        List.all_eq_true.mp hdig ch (List.mem_cons_self ch rest)
      have hch1 : ¬(ch = '-') := by
        intro h
        rw [h] at hch
        exact absurd hch (by decide)
      have hch2 : ¬(ch = '+') := by
        intro h
        rw [h] at hch
        exact absurd hch (by decide)
      have hnod : natOfDigits (ch :: rest) = some n := by
        unfold natOfDigits
        rw [if_neg hne, if_pos hdig]
        exact congrArg some (Option.some.inj hds)
      have hint : pyIntOfStr (ch :: rest) = .ok ((n : Int)) := by
        simp only [pyIntOfStr]
        rw [if_neg hch1, if_neg hch2, hnod]
      have hsp : splitChar '-' (pstr "ohlc" ++ '-' :: (ch :: rest))
          = [pstr "ohlc", ch :: rest] := by
        rw [splitChar_append_cons '-' (pstr "ohlc") (ch :: rest) (by decide),
          splitChar_no_sep '-' (ch :: rest) hnm]
      have hred : ChannelName.mk? (pstr "ohlc" ++ '-' :: (ch :: rest))
          = Except.bind (pyIntOfStr (ch :: rest)) (fun m =>
              Except.bind (SubscriptionInterval.ofValue m) (fun itv =>
                Except.ok (ChannelName.mk EventType.OHLC none (some itv)))) := by
        unfold ChannelName.mk?
        rw [hsp]
        exact ChannelName.ofPieces_ohlc (ch :: rest)
      constructor
      · intro hmem
        obtain ⟨itv, hitv, hval⟩ := SubscriptionInterval.ofValue_mem ((n : Int)) hmem
        refine ⟨itv, ?_, hval⟩
        rw [hred, hint]
        show Except.bind (SubscriptionInterval.ofValue ((n : Int))) _ = _
        rw [hitv]
        rfl
      · intro hmem
        rw [hred, hint]
        show Except.bind (SubscriptionInterval.ofValue ((n : Int))) _ = _
        rw [SubscriptionInterval.ofValue_not_mem ((n : Int)) hmem]
        rfl
    · exact absurd hds (by simp)

/-- C4 witness: the amended theorem applied at the concrete out-of-set
interval 2. -/
theorem c4_witness :
    ChannelName.mk? (pstr "ohlc" ++ '-' :: pstr "2") = Except.error PyExc.valueError :=
  (c4_ohlc_interval_amended (pstr "2") 2 (by decide)).2 (by decide)
